import Mathlib

/-!
Shallow embedding of the `svrmgr-discord-bot` repository (`src/main.py`):
a Discord interactions webhook handler that starts/stops EC2 instances
from message buttons.

Modelling conventions:
* Python strings are modelled as `List Char` (`Str`) so that all string
  operations are structurally recursive and kernel-computable.
* Byte strings are modelled as `List Nat` (`Bytes`).  UTF-8
  encoding/decoding is modelled as the code-point map, which agrees with
  UTF-8 on ASCII; every string the program encodes or decodes is ASCII
  (`json.dumps` escapes non-ASCII by default).
* JSON values are the inductive `Json`; Python `dict`s parsed from JSON
  are association lists with unique keys, in insertion order.
* Exceptions are modelled with `Except` over the `Err` type; the calls
  the handler issues to the EC2 API are collected in a `List Call` log.
* The EC2 control plane is modelled by `Ec2Env`: the tag index that
  `describe_tags` queries and the per-instance states that
  `describe_instance_status` reports.  Pagination
  (`_iter_ec2_response_pages`) is modelled as the concatenation of all
  pages, i.e. each query returns the full item list.
* `json.loads` is kept abstract as a parameter
  `jsonParse : Bytes → Except Unit Json` (it is Python stdlib, not
  repository code); signature verification (`nacl.signing.VerifyKey`)
  is modelled by `naclVerify` below.
-/

/-- Python strings, as lists of characters. -/
abbrev Str := List Char

/-- Byte strings, as lists of code points (each < 256 for real bytes). -/
abbrev Bytes := List Nat

/-- Converts a Lean string literal to the `Str` model. -/
def S (s : String) : Str := s.data

/-- Models `str.encode("utf-8")`; agrees with UTF-8 on ASCII, and every
string the program encodes is ASCII. -/
def strBytes (s : Str) : Bytes := s.map Char.toNat

/-- Models `bytes.decode("utf-8")`; agrees with UTF-8 on ASCII, and every
byte string the program decodes is ASCII. -/
def bytesStr (b : Bytes) : Str := b.map Char.ofNat

/-- JSON values (the subset `json.loads` produces for this program:
no floats appear in any payload the handler consumes or produces). -/
inductive Json where
  | null
  | bool (b : Bool)
  | num (n : Int)
  | str (s : Str)
  | arr (xs : List Json)
  | obj (kvs : List (Str × Json))

mutual

/-- Python `==` on JSON-decoded values.  `True == 1` and `False == 0`
hold in Python because `bool` is an `int` subclass; strings compare by
contents; containers compare element-wise. -/
def pyEq : Json → Json → Bool
  | .null, .null => true
  | .bool a, .bool b => a == b
  | .bool a, .num n => (if a then (1 : Int) else 0) == n
  | .num n, .bool b => n == (if b then (1 : Int) else 0)
  | .num a, .num b => a == b
  | .str a, .str b => a == b
  | .arr a, .arr b => pyEqList a b
  | .obj a, .obj b => pyEqKvs a b
  | _, _ => false

/-- Python `==` on JSON arrays, element-wise. -/
def pyEqList : List Json → List Json → Bool
  | [], [] => true
  | x :: xs, y :: ys => pyEq x y && pyEqList xs ys
  | _, _ => false

/-- Python `==` on JSON objects.  The program only ever compares
non-container values, so comparing objects field-by-field in order is
adequate here. -/
def pyEqKvs : List (Str × Json) → List (Str × Json) → Bool
  | [], [] => true
  | (k1, v1) :: xs, (k2, v2) :: ys => k1 == k2 && pyEq v1 v2 && pyEqKvs xs ys
  | _, _ => false

end

/-- Python truthiness of a JSON-decoded value. -/
def pyTruthy : Json → Bool
  | .null => false
  | .bool b => b
  | .num n => n != 0
  | .str s => !s.isEmpty
  | .arr xs => !xs.isEmpty
  | .obj kvs => !kvs.isEmpty

/-- First-match lookup in an association list (Python `dict.get` for
dicts with unique keys). -/
def dictGet {β : Type} (d : List (Str × β)) (k : Str) : Option β :=
  match d with
  | [] => none
  | (k', v) :: rest => if k' == k then some v else dictGet rest k

/-- In-place update of an association list, keeping insertion order and
appending a fresh key at the end (Python `dict.__setitem__`). -/
def dictSet {β : Type} (d : List (Str × β)) (k : Str) (v : β) : List (Str × β) :=
  match d with
  | [] => [(k, v)]
  | (k', v') :: rest => if k' == k then (k', v) :: rest else (k', v') :: dictSet rest k v

/-- Models `request_data.get(key)` followed by the program's `is None`
tests: a JSON `null` value and an absent key are indistinguishable to
the handler (Python maps JSON `null` to `None`), so both become `none`. -/
def pyGet (kvs : List (Str × Json)) (k : Str) : Option Json :=
  match dictGet kvs k with
  | some .null => none
  | some v => some v
  | none => none

/-- Models `(d.get(key) or {})`: an absent key or a falsy value (null,
false, 0, empty string/array/object) is replaced by the empty object. -/
def pyGetOrEmpty (kvs : List (Str × Json)) (k : Str) : Json :=
  match dictGet kvs k with
  | some v => if pyTruthy v then v else .obj []
  | none => .obj []

/-- Errors raised during handling, one constructor per Python exception
class the code can raise; the message carries `str(exception)`. -/
inductive Err where
  | http (message : Str) (status_code : Nat)
  | notManaged (message : Str)
  | runtimeError (message : Str)
  | valueError (message : Str)
  | keyError (message : Str)
  | attributeError (message : Str)

/-- Python exception class name, for the top-level 500 body
`f"{e.__class__.__name__}: {e}"`. -/
def Err.className : Err → Str
  | .http _ _ => S "HTTPError"
  | .notManaged _ => S "NotManaged"
  | .runtimeError _ => S "RuntimeError"
  | .valueError _ => S "ValueError"
  | .keyError _ => S "KeyError"
  | .attributeError _ => S "AttributeError"

/-- Message text (`str(exception)`) of an error. -/
def Err.message : Err → Str
  | .http m _ => m
  | .notManaged m => m
  | .runtimeError m => m
  | .valueError m => m
  | .keyError m => m
  | .attributeError m => m

/-- Decimal digits of a natural number, fuel-indexed so it is
structurally recursive and kernel-computable. -/
def natStrAux : Nat → Nat → Str
  | 0, _ => []
  | fuel + 1, n =>
    if n < 10 then [Char.ofNat (48 + n)]
    else natStrAux fuel (n / 10) ++ [Char.ofNat (48 + n % 10)]

/-- Decimal rendering of a natural number. -/
def natStr (n : Nat) : Str := natStrAux (n + 1) n

/-- Decimal rendering of an integer (Python `json.dumps` of an `int`). -/
def intStr : Int → Str
  | .ofNat n => natStr n
  | .negSucc n => '-' :: natStr (n + 1)

/-- Lowercase hexadecimal digit. -/
def hexDigitChar (n : Nat) : Char :=
  if n < 10 then Char.ofNat (48 + n) else Char.ofNat (87 + n)

/-- Four-digit lowercase hex rendering, for `\uXXXX` escapes. -/
def hex4 (n : Nat) : Str :=
  [hexDigitChar (n / 4096 % 16), hexDigitChar (n / 256 % 16),
   hexDigitChar (n / 16 % 16), hexDigitChar (n % 16)]

/-- Escape of one character inside a JSON string, as CPython's
`json.dumps` does with its default `ensure_ascii=True`: printable ASCII
other than quote and backslash is literal, the usual two-character
escapes are used for control characters that have them, everything else
becomes `\uXXXX` (with a surrogate pair above the BMP). -/
def jsonEscapeChar (c : Char) : Str :=
  if c = '"' then ['\\', '"']
  else if c = '\\' then ['\\', '\\']
  else if c = '\n' then ['\\', 'n']
  else if c = '\r' then ['\\', 'r']
  else if c = '\t' then ['\\', 't']
  else if c.toNat = 8 then ['\\', 'b']
  else if c.toNat = 12 then ['\\', 'f']
  else if 32 ≤ c.toNat ∧ c.toNat ≤ 126 then [c]
  else if c.toNat < 65536 then '\\' :: 'u' :: hex4 c.toNat
  else
    ('\\' :: 'u' :: hex4 ((c.toNat - 65536) / 1024 + 55296)) ++
    ('\\' :: 'u' :: hex4 ((c.toNat - 65536) % 1024 + 56320))

/-- JSON string literal rendering. -/
def jsonEscape (s : Str) : Str := '"' :: (s.map jsonEscapeChar).flatten ++ ['"']

mutual

/-- Models CPython `json.dumps` with default arguments (item separator
`", "`, key separator `": "`, `ensure_ascii=True`) on the values this
program serializes. -/
def dumps : Json → Str
  | .null => S "null"
  | .bool true => S "true"
  | .bool false => S "false"
  | .num n => intStr n
  | .str s => jsonEscape s
  | .arr xs => '[' :: (List.intercalate (S ", ") (dumpsList xs)) ++ [']']
  | .obj kvs => '\x7b' :: (List.intercalate (S ", ") (dumpsKvs kvs)) ++ ['\x7d']

/-- Serializations of the elements of a JSON array. -/
def dumpsList : List Json → List Str
  | [] => []
  | x :: xs => dumps x :: dumpsList xs

/-- Serializations of the entries of a JSON object. -/
def dumpsKvs : List (Str × Json) → List Str
  | [] => []
  | (k, v) :: kvs => (jsonEscape k ++ S ": " ++ dumps v) :: dumpsKvs kvs

end

/-- ASCII lowercasing of one character (Python `str.lower` restricted to
ASCII, which is all the program lowercases: header names). -/
def lowerChar (c : Char) : Char :=
  if 'A' ≤ c ∧ c ≤ 'Z' then Char.ofNat (c.toNat + 32) else c

/-- ASCII lowercasing of a string. -/
def lowerStr (s : Str) : Str := s.map lowerChar

/-- HTTP request details (`HTTPRequest` dataclass). -/
structure HTTPRequest where
  method : Str
  path : Str
  query_parameters : Option (List (Str × Str))
  headers : List (Str × Str)
  body : Option Bytes

/-- Case-insensitive first-match header lookup
(`HTTPRequest.get_header`). -/
def HTTPRequest.get_header (r : HTTPRequest) (name : Str) : Option Str :=
  (r.headers.find? (fun kv => lowerStr kv.1 == lowerStr name)).map (·.2)

/-- HTTP response details (`HTTPResponse` dataclass). -/
structure HTTPResponse where
  status_code : Nat
  headers : List (Str × Str)
  body : Option Bytes

/-- Models `HTTPError.to_response`. -/
def httpErrorToResponse (message : Str) (status_code : Nat) : HTTPResponse :=
  { status_code := status_code
    headers := [(S "Content-Type", S "text/plain; charset=utf-8")]
    body := some (strBytes message) }

/-- Models `HTTPResponse.from_exception`: an `HTTPError` renders via its
own status code, any other exception becomes a 500 whose plain-text body
is `f"{e.__class__.__name__}: {e}"`. -/
def HTTPResponse.from_exception (e : Err) : HTTPResponse :=
  match e with
  | .http m s => httpErrorToResponse m s
  | _ =>
    { status_code := 500
      headers := [(S "Content-Type", S "text/plain; charset=utf-8")]
      body := some (strBytes (e.className ++ S ": " ++ e.message)) }

/-- Models `HTTPResponse.from_json_body_data`. -/
def HTTPResponse.from_json_body_data (status_code : Nat) (data : Json) : HTTPResponse :=
  { status_code := status_code
    headers := [(S "Content-Type", S "application/json; charset=utf-8")]
    body := some (strBytes (dumps data)) }

/-- One Base64 alphabet character, as a code point. -/
def b64Char (n : Nat) : Nat :=
  if n < 26 then 65 + n
  else if n < 52 then 97 + (n - 26)
  else if n < 62 then 48 + (n - 52)
  else if n = 62 then 43
  else 47

/-- Models `base64.b64encode` (standard alphabet, `=` padding). -/
def base64Encode : Bytes → Bytes
  | a :: b :: c :: rest =>
    b64Char (a / 4) :: b64Char (a % 4 * 16 + b / 16) ::
    b64Char (b % 16 * 4 + c / 64) :: b64Char (c % 64) :: base64Encode rest
  | [a, b] =>
    [b64Char (a / 4), b64Char (a % 4 * 16 + b / 16), b64Char (b % 16 * 4), 61]
  | [a] => [b64Char (a / 4), b64Char (a % 4 * 16), 61, 61]
  | [] => []

/-- Value of one hexadecimal digit character, if it is one. -/
def hexDigitVal (c : Char) : Option Nat :=
  if '0' ≤ c ∧ c ≤ '9' then some (c.toNat - 48)
  else if 'a' ≤ c ∧ c ≤ 'f' then some (c.toNat - 87)
  else if 'A' ≤ c ∧ c ≤ 'F' then some (c.toNat - 70)
  else none

/-- Pairs up hex digits into bytes; a stray or non-hex character is a
`ValueError`. -/
def hexPairs : Str → Except Unit Bytes
  | [] => .ok []
  | [_] => .error ()
  | a :: b :: rest =>
    match hexDigitVal a, hexDigitVal b, hexPairs rest with
    | some x, some y, .ok bs => .ok ((x * 16 + y) :: bs)
    | _, _, _ => .error ()

/-- Models `bytes.fromhex`: spaces between bytes are ignored, the
remaining characters must be an even number of hex digits, otherwise a
`ValueError` is raised. -/
def bytesFromHex (s : Str) : Except Unit Bytes :=
  hexPairs (s.filter (· ≠ ' '))

/-- Host (Lambda) result envelope built by
`HTTPResponse.to_lambda_result`: the `isBase64Encoded` and `body` fields
are present exactly when the method adds them to the dict. -/
structure LambdaResult where
  statusCode : Nat
  headers : List (Str × Str)
  isBase64Encoded : Option Bool
  body : Option Str

/-- The response's Content-Type header by case-insensitive lookup,
defaulting to the empty string (`content_type_header` in
`to_lambda_result`). -/
def responseContentType (r : HTTPResponse) : Str :=
  ((r.headers.find? (fun kv => lowerStr kv.1 == S "content-type")).map (·.2)).getD []

/-- The non-binary test of `to_lambda_result`: Content-Type starts with
`text/` or `application/json`. -/
def isTextOrJson (r : HTTPResponse) : Bool :=
  List.isPrefixOf (S "text/") (responseContentType r) ||
  List.isPrefixOf (S "application/json") (responseContentType r)

/-- Models `HTTPResponse.to_lambda_result`.  With a 204 status the body
field is omitted; otherwise a missing (or empty, which is falsy) body is
a `RuntimeError`; otherwise the body is flagged binary unless the
Content-Type header starts with `text/` or `application/json`, binary
bodies are base64-encoded, and the bytes are embedded as text. -/
def HTTPResponse.to_lambda_result (r : HTTPResponse) : Except Err LambdaResult :=
  if r.status_code ≠ 204 then
    if (r.body.getD []).isEmpty then
      .error (.runtimeError
        (S "Response status must be 204 (not " ++ natStr r.status_code ++
         S ") when body isn't provided"))
    else
      let body0 := r.body.getD []
      let body_is_binary := !isTextOrJson r
      let body_bytes := if body_is_binary then base64Encode body0 else body0
      .ok { statusCode := r.status_code
            headers := r.headers
            isBase64Encoded := some body_is_binary
            body := some (bytesStr body_bytes) }
  else
    .ok { statusCode := r.status_code
          headers := r.headers
          isBase64Encoded := none
          body := none }

/-- Outcomes of `nacl.signing.VerifyKey.verify`. -/
inductive NaclOutcome where
  | badSignature
  | valueError

/-- Models PyNaCl `VerifyKey.verify(smessage, signature)`: a signature
that is not exactly 64 bytes long raises `nacl.exceptions.ValueError`
("The signature must be exactly 64 bytes long"), which is NOT a
`BadSignatureError`; a well-sized signature that fails the Ed25519 check
raises `BadSignatureError`.  The Ed25519 check itself is abstracted as
the predicate `sigOk` over (message, signature). -/
def naclVerify (sigOk : Bytes → Bytes → Bool) (smessage signature : Bytes) :
    Except NaclOutcome Unit :=
  if signature.length ≠ 64 then .error .valueError
  else if sigOk smessage signature then .ok () else .error .badSignature

/-- Process configuration: `verify_key` is `some sigOk` when
`SVRMGR_DISCORD_APP_PUBLIC_KEY` is set (with `sigOk` abstracting the
Ed25519 verification under that key), `none` otherwise. -/
structure Config where
  verify_key : Option (Bytes → Bytes → Bool)

/-- Models `verify_discord_request_auth`: skip when no key is
configured; else hex-decode the signature header (absent means `""`),
form `timestamp + body`, fail 401 when that message is empty, then
verify, turning only `BadSignatureError` into a 401. -/
def verify_discord_request_auth (cfg : Config) (request : HTTPRequest) :
    Except Err Unit :=
  match cfg.verify_key with
  | none => .ok ()
  | some sigOk =>
    match bytesFromHex ((request.get_header (S "X-Signature-Ed25519")).getD []) with
    | .error _ => .error (.valueError (S "non-hexadecimal number found in fromhex() arg"))
    | .ok signature =>
      let timestamp := strBytes ((request.get_header (S "X-Signature-Timestamp")).getD [])
      let message := timestamp ++ (request.body.getD [])
      if message.isEmpty then
        .error (.http (S "missing request signature") 401)
      else
        match naclVerify sigOk message signature with
        | .error .badSignature => .error (.http (S "invalid request signature") 401)
        | .error .valueError =>
          .error (.valueError (S "The signature must be exactly 64 bytes long"))
        | .ok _ => .ok ()

/-- Models `HTTPRequest.get_json_body_data` composed with the handler's
use: no body parses to `None`; a body that `json.loads` rejects raises
a `ValueError` (`json.JSONDecodeError`). -/
def get_json_body_data (jsonParse : Bytes → Except Unit Json)
    (request : HTTPRequest) : Except Err (Option Json) :=
  match request.body with
  | none => .ok none
  | some bs =>
    match jsonParse bs with
    | .ok v => .ok (some v)
    | .error _ => .error (.valueError (S "Expecting value: line 1 column 1 (char 0)"))

/-- EC2 instance running status (`InstanceState` enum). -/
inductive InstanceState where
  | pending
  | running
  | shutting_down
  | terminated
  | stopping
  | stopped
deriving DecidableEq

/-- Wire value of an instance state (the enum's `.value`). -/
def InstanceState.value : InstanceState → Str
  | .pending => S "pending"
  | .running => S "running"
  | .shutting_down => S "shutting-down"
  | .terminated => S "terminated"
  | .stopping => S "stopping"
  | .stopped => S "stopped"

/-- EC2 instance details (`Instance` dataclass). -/
structure Instance where
  id : Str
  tags : List (Str × Str)
  state : Option InstanceState := none

/-- One entry of the provider's tag index, as returned by
`describe_tags`. -/
structure TagDescription where
  resourceId : Str
  key : Str
  value : Str

/-- The EC2 control plane the handler queries: the instance tag index
and the per-instance states `describe_instance_status` reports (with
`IncludeAllInstances=True`). -/
structure Ec2Env where
  tags : List TagDescription
  instanceStates : List (Str × InstanceState)

/-- EC2 API calls the handler can issue, in issue order. -/
inductive Call where
  | describeTagsAll
  | describeTagsInstance (instance_id : Str)
  | describeInstanceStatus (instance_ids : List Str)
  | startInstances (instance_id : Str)
  | stopInstances (instance_id : Str)
deriving DecidableEq

/-- Tag-key constant `TAG_KEY = "svrmgr-message-id"`. -/
def TAG_KEY : Str := S "svrmgr-message-id"

/-- Groups the tag listing by instance (`tags_by_instance` in
`list_instances`): a Python dict of dicts in insertion order. -/
def groupTagsByInstance (tags : List TagDescription) :
    List (Str × List (Str × Str)) :=
  tags.foldl
    (fun d tag =>
      dictSet d tag.resourceId (dictSet ((dictGet d tag.resourceId).getD []) tag.key tag.value))
    []

/-- Models `list_instances`: describe tags filtered to keys `TAG_KEY`
and `Name` on instances (all pages), group by instance, materialize
`Instance` records with no state. -/
def list_instances (env : Ec2Env) : List Instance × List Call :=
  let tags := env.tags.filter (fun t => t.key == TAG_KEY || t.key == S "Name")
  ((groupTagsByInstance tags).map (fun kv => { id := kv.1, tags := kv.2 }),
   [Call.describeTagsAll])

/-- State lookups of `get_instances_state`'s update loop; a missing
entry is the loop's `KeyError` (fatal). -/
def getInstancesStateAux (env : Ec2Env) : List Instance → Except Err (List Instance)
  | [] => .ok []
  | i :: rest =>
    match dictGet env.instanceStates i.id with
    | none => .error (.keyError ('\'' :: i.id ++ ['\'']))
    | some st =>
      match getInstancesStateAux env rest with
      | .error e => .error e
      | .ok rs => .ok ({ i with state := some st } :: rs)

/-- Models `get_instances_state`: one `describe_instance_status` call
for all the instances' ids, then each instance's state is filled in from
the response (returned rather than mutated in place). -/
def get_instances_state (env : Ec2Env) (instances : List Instance) :
    Except Err (List Instance) × List Call :=
  (getInstancesStateAux env instances,
   [Call.describeInstanceStatus (instances.map (·.id))])

/-- Models `get_message_id_for_instance`: describe the instance's
`TAG_KEY` tags; none means `NotManaged`; `len(tags) > 2` (as written in
the source — not `> 1`) is the "multiple tags" `RuntimeError`; otherwise
the first tag's value is returned. -/
def get_message_id_for_instance (env : Ec2Env) (instance_id : Str) :
    Except Err Str × List Call :=
  let tags := env.tags.filter
    (fun t => t.resourceId == instance_id && t.key == TAG_KEY)
  let res : Except Err Str :=
    match tags with
    | [] =>
      .error (.notManaged
        ('E' :: S "C2 instance '" ++ instance_id ++
         S "' is not managed by any Discord message"))
    | t :: rest =>
      if (t :: rest).length > 2 then
        .error (.runtimeError
          (S "Found multiple tags on EC2 instance '" ++ instance_id ++
           S "' with key '" ++ TAG_KEY ++ ['\'']))
      else .ok t.value
  (res, [Call.describeTagsInstance instance_id])

/-- Models `start_instance`: a single `start_instances` call. -/
def start_instance (instance_id : Str) : Unit × List Call :=
  ((), [Call.startInstances instance_id])

/-- Models `stop_instance`: a single `stop_instances` call. -/
def stop_instance (instance_id : Str) : Unit × List Call :=
  ((), [Call.stopInstances instance_id])

/-- Python `s.split(":")` (split on every colon; never empty). -/
def splitColon : Str → List Str
  | [] => [[]]
  | x :: xs =>
    let rest := splitColon xs
    if x = ':' then [] :: rest
    else
      match rest with
      | [] => [[x]]
      | r :: rs => (x :: r) :: rs

/-- Python `s.split(":", maxsplit=1)`: the head segment, and — when a
colon is present — the remainder after the first colon. -/
def splitColon1 (s : Str) : Str × Option Str :=
  match splitColon s with
  | [] => (s, none)
  | [x] => (x, none)
  | x :: rest => (x, some (List.intercalate [':'] rest))

/-- Python `instance.tags.get("Name") or instance.id`: the display-name
tag unless it is absent or empty, else the instance id.  The same
expression is the handler's sort key and the renderer's display name. -/
def nameOrId (x : Instance) : Str :=
  match dictGet x.tags (S "Name") with
  | some n => if n.isEmpty then x.id else n
  | none => x.id

/-- Lexicographic code-point order on strings (Python `str.__lt__`). -/
def strLt : Str → Str → Bool
  | [], [] => false
  | [], _ :: _ => true
  | _ :: _, [] => false
  | a :: as, b :: bs =>
    if a.toNat < b.toNat then true
    else if b.toNat < a.toNat then false
    else strLt as bs

/-- Non-strict string order, as `sorted` uses it (`¬ (b < a)`). -/
def strLe (a b : Str) : Bool := !strLt b a

/-- Inserts `x` after every already-placed element whose key is ≤ its
key: the insertion step of a stable sort. -/
def insertByKey {α : Type} (key : α → Str) (x : α) : List α → List α
  | [] => [x]
  | y :: ys =>
    if strLe (key y) (key x) then y :: insertByKey key x ys
    else x :: y :: ys

/-- Models Python `sorted(l, key=key)` with string keys: a stable sort
ordering elements by key and keeping the input order among equal keys. -/
def pySorted {α : Type} (key : α → Str) (l : List α) : List α :=
  l.foldl (fun acc x => insertByKey key x acc) []

/-- The handler's filter step: managed instances whose ownership tag
equals (`==`) the interaction's message id (an absent tag compares
unequal, as Python `None == message_id` is false there). -/
def managedByMessage (env : Ec2Env) (message_id : Json) : List Instance :=
  ((list_instances env).1).filter
    (fun i =>
      match dictGet i.tags TAG_KEY with
      | some v => pyEq (.str v) message_id
      | none => false)

/-- The handler's instance selection: list managed instances, keep those
whose ownership tag equals the interaction's message id, sort by display
name with identifier fallback (`sorted(…, key=…)`). -/
def selectInstances (env : Ec2Env) (message_id : Json) : List Instance :=
  pySorted nameOrId (managedByMessage env message_id)

/-- One button row `{"type": 1, "components": [{"type": 2, "label": …,
"style": …, "custom_id": …}]}`. -/
def buttonRow (label : Str) (style : Nat) (custom_id : Str) : Json :=
  .obj [(S "type", .num 1),
        (S "components", .arr [
          .obj [(S "type", .num 2), (S "label", .str label),
                (S "style", .num (style : Int)), (S "custom_id", .str custom_id)]])]

/-- The leading refresh row (label `"↻"`, neutral style, custom id
`refresh`). -/
def refreshRow : Json := buttonRow ['↻'] 2 (S "refresh")

/-- Per-instance button row: `stopped` → affirmative (style 3)
`Start <name>` bound to `start:<id>`; `running` → destructive (style 4)
`Stop <name>` bound to `stop:<id>`; anything else → neutral (style 2)
`<name> (<state-or-unknown>)` bound to `refresh:<id>` (the state label
is `instance.state and instance.state.value or 'unknown'`, i.e.
`unknown` when the state is absent). -/
def instanceRow (inst : Instance) : Json :=
  let name := nameOrId inst
  if inst.state = some .stopped then
    buttonRow (S "Start " ++ name) 3 (S "start:" ++ inst.id)
  else if inst.state = some .running then
    buttonRow (S "Stop " ++ name) 4 (S "stop:" ++ inst.id)
  else
    buttonRow
      (name ++ S " (" ++
        (match inst.state with
         | some st => st.value
         | none => S "unknown") ++ [')'])
      2 (S "refresh:" ++ inst.id)

/-- The control grid: the refresh row followed by one row per instance
in the order given. -/
def serverComponents (instances : List Instance) : List Json :=
  refreshRow :: instances.map instanceRow

/-- The message-update response: a 200 whose JSON body is
`{"type": 7, "data": {"content": "Servers", "components": …}}`. -/
def renderResponse (instances : List Instance) : HTTPResponse :=
  HTTPResponse.from_json_body_data 200
    (.obj [(S "type", .num 7),
           (S "data", .obj [(S "content", .str (S "Servers")),
                            (S "components", .arr (serverComponents instances))])])

/-- The re-render tail of `handle_request` (its lines 419–461): list
instances, filter to this message's, sort, fetch states, build the
update message. -/
def listAndRender (env : Ec2Env) (message_id : Json) :
    Except Err HTTPResponse × List Call :=
  let instances := selectInstances env message_id
  let stateStep := get_instances_state env instances
  match stateStep.1 with
  | .error e => (.error e, (list_instances env).2 ++ stateStep.2)
  | .ok instances2 => (.ok (renderResponse instances2), (list_instances env).2 ++ stateStep.2)

/-- The start/stop arm of `handle_request` (its lines 398–415): resolve
the owning message (`NotManaged` becomes a 403), require it to equal
(`==`) the interaction's message id (else 403), then issue the start or
stop call and re-render. -/
def handleStartStop (env : Ec2Env) (message_id : Json) (action instance_id : Str) :
    Except Err HTTPResponse × List Call :=
  let ownerStep := get_message_id_for_instance env instance_id
  match ownerStep.1 with
  | .error (.notManaged _) =>
    (.error (.http (S "Not allowed: instance doesn't exist or isn't managed by svrmgr") 403),
     ownerStep.2)
  | .error e => (.error e, ownerStep.2)
  | .ok instance_message_id =>
    if !pyEq (.str instance_message_id) message_id then
      (.error (.http (S "Not allowed: instance isn't managed by this message") 403),
       ownerStep.2)
    else
      let mutStep :=
        if action == S "start" then start_instance instance_id
        else stop_instance instance_id
      let renderStep := listAndRender env message_id
      (renderStep.1, ownerStep.2 ++ mutStep.2 ++ renderStep.2)

/-- The component dispatch of `handle_request` (its lines 394–417 plus
the re-render): `start`/`stop` head → authorize against the owning
message and mutate (a missing colon makes the two-variable unpacking of
`split(":", maxsplit=1)` raise `ValueError`); otherwise anything that is
not `refresh` and whose head is not `refresh` is a 400; then re-render. -/
def handleComponent (env : Ec2Env) (message_id : Json) (custom_id : Str) :
    Except Err HTTPResponse × List Call :=
  if (splitColon custom_id).headD [] == S "start" ||
     (splitColon custom_id).headD [] == S "stop" then
    match splitColon1 custom_id with
    | (_, none) =>
      (.error (.valueError (S "not enough values to unpack (expected 2, got 1)")), [])
    | (action, some instance_id) => handleStartStop env message_id action instance_id
  else
    if !(custom_id == S "refresh") && !((splitColon custom_id).headD [] == S "refresh") then
      (.error (.http (S "Unknown component custom ID") 400), [])
    else
      listAndRender env message_id

/-- The post-parsing body of `handle_request`: object check, type
dispatch (ping pong, only message-component accepted), message-id and
custom-id extraction, then component dispatch. -/
def handleInteraction (env : Ec2Env) (request_data : Option Json) :
    Except Err HTTPResponse × List Call :=
  match request_data with
  | some (.obj kvs) =>
    match pyGet kvs (S "type") with
    | none => (.error (.http (S "Bad request body: missing type") 400), [])
    | some interaction_type =>
      if pyEq interaction_type (.num 1) then
        (.ok (HTTPResponse.from_json_body_data 200 (.obj [(S "type", .num 1)])), [])
      else if !pyEq interaction_type (.num 3) then
        (.error (.http (S "Unsupported interaction type") 400), [])
      else
        match pyGetOrEmpty kvs (S "message") with
        | .obj messageKvs =>
          match pyGet messageKvs (S "id") with
          | none => (.error (.http (S "Bad request body: missing message ID") 400), [])
          | some message_id =>
            match pyGetOrEmpty kvs (S "data") with
            | .obj dataKvs =>
              let custom_idOpt := pyGet dataKvs (S "custom_id")
              if !(match custom_idOpt with
                   | some v => pyTruthy v
                   | none => false) then
                (.error (.http (S "Bad request body: missing component custom ID") 400), [])
              else
                match custom_idOpt with
                | some (.str custom_id) => handleComponent env message_id custom_id
                | _ =>
                  (.error (.attributeError (S "object has no attribute 'split'")), [])
            | _ => (.error (.attributeError (S "object has no attribute 'get'")), [])
        | _ => (.error (.attributeError (S "object has no attribute 'get'")), [])
  | _ => (.error (.http (S "Bad request body: not an object") 400), [])

/-- Models `handle_request`: verify the request's signature, parse the
JSON body, then run the interaction decision tree. -/
def handle_request (cfg : Config) (jsonParse : Bytes → Except Unit Json)
    (env : Ec2Env) (request : HTTPRequest) :
    Except Err HTTPResponse × List Call :=
  match verify_discord_request_auth cfg request with
  | .error e => (.error e, [])
  | .ok _ =>
    match get_json_body_data jsonParse request with
    | .error e => (.error e, [])
    | .ok request_data => handleInteraction env request_data

/-- Models `main`'s try/except around `handle_request`: any raised
error is converted by `HTTPResponse.from_exception` (an `HTTPError` to
its own status, anything else to a 500). -/
def main_handler (cfg : Config) (jsonParse : Bytes → Except Unit Json)
    (env : Ec2Env) (request : HTTPRequest) : HTTPResponse × List Call :=
  match handle_request cfg jsonParse env request with
  | (.ok r, calls) => (r, calls)
  | (.error e, calls) => (HTTPResponse.from_exception e, calls)

/-! Test fixtures shared by the claim theorems below. -/

/-- Configuration with no verification key (auth skipped). -/
def noAuthConfig : Config := ⟨none⟩

/-- Body parser returning a fixed already-parsed JSON value (stands for
`json.loads` succeeding with that value). -/
def constParse (v : Json) : Bytes → Except Unit Json := fun _ => .ok v

/-- A POST request with no headers and the given body. -/
def plainRequest (body : Bytes) : HTTPRequest :=
  { method := S "POST", path := S "/", query_parameters := none,
    headers := [], body := some body }

/-- A message-component interaction payload
`{type: 3, message: {id: …}, data: {custom_id: …}}`. -/
def componentPayload (message_id : Json) (custom_id : Str) : Json :=
  .obj [(S "type", .num 3),
        (S "message", .obj [(S "id", message_id)]),
        (S "data", .obj [(S "custom_id", .str custom_id)])]

/-- An EC2 environment with no tags and no instances. -/
def emptyEnv : Ec2Env := { tags := [], instanceStates := [] }

/-- An EC2 environment where instance `i-1` carries exactly two
ownership tags (values `M1` then `M2`): the data-integrity situation the
`# impossibru!` guard of `get_message_id_for_instance` is meant to
reject. -/
def envTwoOwnershipTags : Ec2Env :=
  { tags := [⟨S "i-1", TAG_KEY, S "M1"⟩, ⟨S "i-1", TAG_KEY, S "M2"⟩],
    instanceStates := [] }

/-- An environment where instance `i-a` is owned by message `M2`. -/
def envOwnedByM2 : Ec2Env :=
  { tags := [⟨S "i-a", TAG_KEY, S "M2"⟩], instanceStates := [] }

/-- The signed message `timestamp + body` of
`verify_discord_request_auth` (absent pieces read as empty). -/
def authMessage (request : HTTPRequest) : Bytes :=
  strBytes ((request.get_header (S "X-Signature-Timestamp")).getD []) ++
  request.body.getD []

/-- An always-failing Ed25519 verification predicate. -/
def constFalseSig : Bytes → Bytes → Bool := fun _ _ => false

/-- A request carrying a timestamp header and a body but no signature
header. -/
def noSigHeaderRequest : HTTPRequest :=
  { method := S "POST", path := S "/", query_parameters := none,
    headers := [(S "X-Signature-Timestamp", S "1700000000")],
    body := some (strBytes (S "x")) }

/-- A request signed with 64 zero bytes (128 hex zeros) over message
`1` (timestamp `1`, no body). -/
def zeroSigRequest : HTTPRequest :=
  { method := S "POST", path := S "/", query_parameters := none,
    headers := [(S "X-Signature-Ed25519", List.replicate 128 '0'),
                (S "X-Signature-Timestamp", S "1")],
    body := none }

/-- Ordering relation the claim asserts (spec side, for comparison):
ascending display name, ties broken by instance identifier. -/
def specLeNameThenId (a b : Instance) : Bool :=
  strLt (nameOrId a) (nameOrId b) ||
  ((nameOrId a == nameOrId b) && strLe a.id b.id)

/-- Sortedness in the claim's asserted order (spec side). -/
def specSortedByNameThenId : List Instance → Bool
  | [] => true
  | [_] => true
  | a :: b :: rest => specLeNameThenId a b && specSortedByNameThenId (b :: rest)

/-- An environment with two instances both displayed as `srv` and owned
by `M1`, the one with the larger identifier listed first by the
provider. -/
def envTieNames : Ec2Env :=
  { tags := [⟨S "i-b", TAG_KEY, S "M1"⟩, ⟨S "i-b", S "Name", S "srv"⟩,
             ⟨S "i-a", TAG_KEY, S "M1"⟩, ⟨S "i-a", S "Name", S "srv"⟩],
    instanceStates := [(S "i-b", .running), (S "i-a", .running)] }

/-- C3: the claim says strictly more than one matching ownership tag
fails with a fatal integrity error, and the code's own comment and
`RuntimeError` message agree — but the guard is written `len(tags) > 2`,
so with exactly two matching tags the function silently returns the
first tag's value instead of raising.  This theorem evaluates the code
at that failing input. -/
theorem claim_c3_two_tags_returns_first :
    (get_message_id_for_instance envTwoOwnershipTags (S "i-1")).1 = .ok (S "M1") := by
  rfl

/-- C7: an authenticated payload whose type discriminator compares equal
to 1 is answered with a 200 whose JSON body is `{"type": 1}`, with no
EC2 call of any kind (no directory lookup, no mutation, no rendering),
whatever else the payload contains. -/
theorem claim_c7_ping_pong (cfg : Config) (jsonParse : Bytes → Except Unit Json)
    (env : Ec2Env) (request : HTTPRequest) (kvs : List (Str × Json)) (tv : Json)
    (hauth : verify_discord_request_auth cfg request = .ok ())
    (hparse : get_json_body_data jsonParse request = .ok (some (.obj kvs)))
    (htype : pyGet kvs (S "type") = some tv)
    (hone : pyEq tv (.num 1) = true) :
    handle_request cfg jsonParse env request =
      (.ok (HTTPResponse.from_json_body_data 200 (.obj [(S "type", .num 1)])), []) ∧
    (HTTPResponse.from_json_body_data 200 (.obj [(S "type", .num 1)])).status_code = 200 ∧
    (HTTPResponse.from_json_body_data 200 (.obj [(S "type", .num 1)])).body =
      some (strBytes (S "\x7b\"type\": 1\x7d")) := by
  refine ⟨?_, rfl, rfl⟩
  simp only [handle_request, hauth, hparse, handleInteraction, htype, hone, if_true]

/-- C7 witness: a concrete ping interaction. -/
theorem claim_c7_witness :
    handle_request noAuthConfig (constParse (.obj [(S "type", .num 1)])) emptyEnv
        (plainRequest (strBytes (S "x"))) =
      (.ok (HTTPResponse.from_json_body_data 200 (.obj [(S "type", .num 1)])), []) :=
  (claim_c7_ping_pong noAuthConfig (constParse (.obj [(S "type", .num 1)])) emptyEnv
    (plainRequest (strBytes (S "x"))) [(S "type", .num 1)] (.num 1)
    rfl rfl rfl rfl).1

/-- Key self-lookup: `pyGet` on a singleton object returns its value
when that value is not JSON `null`. -/
lemma pyGet_single (mid : Json) (h : mid ≠ Json.null) (k : Str) :
    pyGet [(k, mid)] k = some mid := by
  cases mid with
  | null => exact absurd rfl h
  | _ => simp [pyGet, dictGet]

/-- Routing of a well-formed message-component payload: the handler
reaches the component dispatch with the payload's message id and custom
id. -/
lemma handleInteraction_componentPayload (env : Ec2Env) (mid : Json) (cid : Str)
    (hmid : mid ≠ Json.null) (hcid : cid ≠ []) :
    handleInteraction env (some (componentPayload mid cid)) =
      handleComponent env mid cid := by
  cases cid with
  | nil => exact absurd rfl hcid
  | cons c cs =>
    cases mid with
    | null => exact absurd rfl hmid
    | bool b => rfl
    | num n => rfl
    | str s => rfl
    | arr xs => rfl
    | obj kvs => rfl

/-- Routing through `handle_request` with auth skipped and the body
parsing to a well-formed message-component payload. -/
lemma handle_request_componentPayload (env : Ec2Env) (mid : Json) (cid : Str)
    (body : Bytes) (hmid : mid ≠ Json.null) (hcid : cid ≠ []) :
    handle_request noAuthConfig (constParse (componentPayload mid cid)) env
        (plainRequest body) =
      handleComponent env mid cid := by
  simp only [handle_request, verify_discord_request_auth, noAuthConfig,
    get_json_body_data, plainRequest, constParse]
  exact handleInteraction_componentPayload env mid cid hmid hcid

/-- C10: a custom id of exactly `start:` or `stop:` is not a 400 grammar
error: the empty target is accepted and passed to the ownership lookup
(the tag query for instance id `""` appears in the call log), and when
the provider has no ownership tag for the empty identifier the press
surfaces as a 403 with no start/stop call issued (the log holds only the
lookup). -/
theorem claim_c10_empty_target (env : Ec2Env) (mid : Json)
    (hmid : mid ≠ Json.null)
    (hempty : env.tags.filter
      (fun t => t.resourceId == ([] : Str) && t.key == TAG_KEY) = []) :
    handle_request noAuthConfig (constParse (componentPayload mid (S "start:"))) env
        (plainRequest (strBytes (S "x"))) =
      (.error (.http (S "Not allowed: instance doesn't exist or isn't managed by svrmgr") 403),
       [Call.describeTagsInstance []]) ∧
    handle_request noAuthConfig (constParse (componentPayload mid (S "stop:"))) env
        (plainRequest (strBytes (S "x"))) =
      (.error (.http (S "Not allowed: instance doesn't exist or isn't managed by svrmgr") 403),
       [Call.describeTagsInstance []]) := by
  have hnm : (get_message_id_for_instance env []).1 =
      .error (.notManaged
        ('E' :: S "C2 instance '" ++ ([] : Str) ++
         S "' is not managed by any Discord message")) := by
    simp only [get_message_id_for_instance, hempty]
  constructor <;>
  · rw [handle_request_componentPayload env mid _ _ hmid (by decide)]
    show handleStartStop env mid _ [] = _
    simp only [handleStartStop, get_message_id_for_instance] at hnm ⊢
    rw [hempty] at hnm ⊢

/-- C10 witness: the empty environment and a concrete message id. -/
theorem claim_c10_witness :
    handle_request noAuthConfig
        (constParse (componentPayload (.str (S "M1")) (S "start:"))) emptyEnv
        (plainRequest (strBytes (S "x"))) =
      (.error (.http (S "Not allowed: instance doesn't exist or isn't managed by svrmgr") 403),
       [Call.describeTagsInstance []]) :=
  (claim_c10_empty_target emptyEnv (.str (S "M1")) (by simp) rfl).1

/-- C6: an authenticated request whose body is not a JSON object
(including no body at all, which parses to `None`), or whose object
lacks the `type` discriminator (absent or JSON `null`), fails with a 400
validation error before any EC2 call. -/
theorem claim_c6_validation_400 (cfg : Config) (jsonParse : Bytes → Except Unit Json)
    (env : Ec2Env) (request : HTTPRequest) (rd : Option Json)
    (hauth : verify_discord_request_auth cfg request = .ok ())
    (hparse : get_json_body_data jsonParse request = .ok rd) :
    ((∀ kvs, rd ≠ some (.obj kvs)) →
      handle_request cfg jsonParse env request =
        (.error (.http (S "Bad request body: not an object") 400), [])) ∧
    (∀ kvs, rd = some (.obj kvs) → pyGet kvs (S "type") = none →
      handle_request cfg jsonParse env request =
        (.error (.http (S "Bad request body: missing type") 400), [])) := by
  constructor
  · intro hno
    simp only [handle_request, hauth, hparse]
    cases rd with
    | none => rfl
    | some v =>
      cases v with
      | obj kvs => exact absurd rfl (hno kvs)
      | null => rfl
      | bool b => rfl
      | num n => rfl
      | str s => rfl
      | arr xs => rfl
  · intro kvs hobj htype
    subst hobj
    simp only [handle_request, hauth, hparse, handleInteraction, htype]

/-- C6 witness: a body parsing to a bare JSON number, and a body parsing
to an object with no `type` key. -/
theorem claim_c6_witness :
    handle_request noAuthConfig (constParse (.num 5)) emptyEnv
        (plainRequest (strBytes (S "5"))) =
      (.error (.http (S "Bad request body: not an object") 400), []) ∧
    handle_request noAuthConfig (constParse (.obj [(S "foo", .num 1)])) emptyEnv
        (plainRequest (strBytes (S "x"))) =
      (.error (.http (S "Bad request body: missing type") 400), []) :=
  ⟨(claim_c6_validation_400 noAuthConfig (constParse (.num 5)) emptyEnv
      (plainRequest (strBytes (S "5"))) (some (.num 5)) rfl rfl).1
      (fun kvs h => by simp at h),
   (claim_c6_validation_400 noAuthConfig (constParse (.obj [(S "foo", .num 1)])) emptyEnv
      (plainRequest (strBytes (S "x"))) (some (.obj [(S "foo", .num 1)])) rfl rfl).2
      [(S "foo", .num 1)] rfl rfl⟩

/-- Python `split` never returns an empty list. -/
lemma splitColon_ne_nil (s : Str) : splitColon s ≠ [] := by
  cases s with
  | nil => simp [splitColon]
  | cons c cs =>
    simp only [splitColon]
    rcases h : splitColon cs with _ | ⟨r, rs⟩
    · by_cases hc : c = ':' <;> simp [hc]
    · by_cases hc : c = ':' <;> simp [hc]

/-- The head of `split(":", maxsplit=1)` is the head of `split(":")`. -/
lemma splitColon1_head (s a : Str) (o : Option Str) (h : splitColon1 s = (a, o)) :
    (splitColon s).headD [] = a := by
  unfold splitColon1 at h
  rcases hs : splitColon s with _ | ⟨x, rest⟩
  · exact absurd hs (splitColon_ne_nil s)
  · rw [hs] at h
    cases rest <;> simp_all

/-- The component dispatch forwards a colon-bearing `start`/`stop`
custom id to the start/stop arm with head and remainder. -/
lemma handleComponent_startStop (env : Ec2Env) (mid : Json) (cid a iid : Str)
    (hsplit : splitColon1 cid = (a, some iid))
    (ha : a = S "start" ∨ a = S "stop") :
    handleComponent env mid cid = handleStartStop env mid a iid := by
  have hh := splitColon1_head cid a _ hsplit
  simp only [handleComponent, hh, hsplit]
  rcases ha with h | h <;> subst h <;> simp

/-- Call log of the owner-message resolution: exactly one tag query. -/
lemma get_message_id_calls (env : Ec2Env) (iid : Str) :
    (get_message_id_for_instance env iid).2 = [Call.describeTagsInstance iid] := rfl

/-- Call log of the re-render tail: the tag listing then the status
query, and nothing else (in particular no start/stop). -/
lemma listAndRender_calls (env : Ec2Env) (mid : Json) :
    (listAndRender env mid).2 =
      [Call.describeTagsAll,
       Call.describeInstanceStatus ((selectInstances env mid).map (·.id))] := by
  simp only [listAndRender, get_instances_state, list_instances]
  cases h : getInstancesStateAux env (selectInstances env mid) <;> simp [h]

/-- C1: for a `start`/`stop` custom id with a colon-delimited target,
the lifecycle call is issued only when the ownership lookup succeeds
with exactly the interaction's message id: an unmanaged target is a 403
with the lookup as the only EC2 call, an owner mismatch is likewise a
403 with no mutation, and any start/stop call in the log implies the
lookup succeeded, matched, and targeted that same instance. -/
theorem claim_c1_start_stop_authorization (env : Ec2Env) (mid : Json)
    (cid a iid : Str) (hmid : mid ≠ Json.null)
    (hsplit : splitColon1 cid = (a, some iid))
    (ha : a = S "start" ∨ a = S "stop") :
    (∀ m, (get_message_id_for_instance env iid).1 = .error (.notManaged m) →
      handle_request noAuthConfig (constParse (componentPayload mid cid)) env
          (plainRequest (strBytes (S "x"))) =
        (.error (.http (S "Not allowed: instance doesn't exist or isn't managed by svrmgr") 403),
         [Call.describeTagsInstance iid])) ∧
    (∀ v, (get_message_id_for_instance env iid).1 = .ok v → pyEq (.str v) mid = false →
      handle_request noAuthConfig (constParse (componentPayload mid cid)) env
          (plainRequest (strBytes (S "x"))) =
        (.error (.http (S "Not allowed: instance isn't managed by this message") 403),
         [Call.describeTagsInstance iid])) ∧
    (∀ j,
      (Call.startInstances j ∈
          (handle_request noAuthConfig (constParse (componentPayload mid cid)) env
            (plainRequest (strBytes (S "x")))).2 ∨
       Call.stopInstances j ∈
          (handle_request noAuthConfig (constParse (componentPayload mid cid)) env
            (plainRequest (strBytes (S "x")))).2) →
      j = iid ∧ ∃ v, (get_message_id_for_instance env iid).1 = .ok v ∧
        pyEq (.str v) mid = true) := by
  have hcid : cid ≠ [] := by
    intro h
    rw [h] at hsplit
    simp [splitColon1, splitColon] at hsplit
  rw [handle_request_componentPayload env mid cid _ hmid hcid,
    handleComponent_startStop env mid cid a iid hsplit ha]
  refine ⟨?_, ?_, ?_⟩
  · intro m hm
    simp only [handleStartStop, hm, get_message_id_calls]
  · intro v hv hne
    simp only [handleStartStop, hv, hne, get_message_id_calls, Bool.not_false, if_true]
  · intro j hj
    rcases hown : (get_message_id_for_instance env iid).1 with e | v
    · cases e <;> simp [handleStartStop, hown, get_message_id_calls] at hj
    · cases hpe : pyEq (.str v) mid with
      | false => simp [handleStartStop, hown, hpe, get_message_id_calls] at hj
      | true =>
        have hss : (S "stop" == S "start") = false := by decide
        rcases ha with h | h <;> subst h <;>
          simp [handleStartStop, hown, hpe, get_message_id_calls, hss,
            listAndRender_calls, start_instance, stop_instance] at hj <;>
          exact ⟨hj, v, rfl, hpe⟩

/-- C1 witness: pressing `stop:i-a` from message `M1` while `i-a` is
owned by `M2` yields a 403 with only the ownership lookup issued. -/
theorem claim_c1_witness :
    handle_request noAuthConfig
        (constParse (componentPayload (.str (S "M1")) (S "stop:i-a"))) envOwnedByM2
        (plainRequest (strBytes (S "x"))) =
      (.error (.http (S "Not allowed: instance isn't managed by this message") 403),
       [Call.describeTagsInstance (S "i-a")]) :=
  (claim_c1_start_stop_authorization envOwnedByM2 (.str (S "M1")) (S "stop:i-a")
    (S "stop") (S "i-a") (fun h => Json.noConfusion h) rfl (Or.inr rfl)).2.1
    (S "M2") rfl rfl

/-- C4 counterexample: the claim says a bare `start` (no colon) yields a
400, but the code enters the start/stop branch (its head segment is
`start`) and the two-variable unpacking of `split(":", maxsplit=1)`
raises an uncaught `ValueError`, surfaced by the top-level handler as a
500, not a 400. -/
theorem claim_c4_counterexample :
    (main_handler noAuthConfig
        (constParse (componentPayload (.str (S "M1")) (S "start"))) emptyEnv
        (plainRequest (strBytes (S "x")))).1.status_code = 500 ∧
    ¬ (main_handler noAuthConfig
        (constParse (componentPayload (.str (S "M1")) (S "start"))) emptyEnv
        (plainRequest (strBytes (S "x")))).1.status_code = 400 ∧
    (main_handler noAuthConfig
        (constParse (componentPayload (.str (S "M1")) (S "start"))) emptyEnv
        (plainRequest (strBytes (S "x")))).1.body =
      some (strBytes (S "ValueError: not enough values to unpack (expected 2, got 1)")) := by
  refine ⟨rfl, by decide, rfl⟩

/-- C4 amended: with message id and custom identifier present, a custom
identifier whose head segment is none of `start`, `stop`, `refresh` and
which is not exactly `refresh` fails with 400 "Unknown component custom
ID"; but a bare `start`/`stop` with no colon-delimited target instead
raises the unpack `ValueError`, surfaced as a 500 — not a 400. -/
theorem claim_c4_amended_grammar (env : Ec2Env) (mid : Json) (cid : Str)
    (hmid : mid ≠ Json.null) (hcid : cid ≠ []) :
    ((splitColon cid).headD [] ≠ S "start" → (splitColon cid).headD [] ≠ S "stop" →
     cid ≠ S "refresh" → (splitColon cid).headD [] ≠ S "refresh" →
      handle_request noAuthConfig (constParse (componentPayload mid cid)) env
          (plainRequest (strBytes (S "x"))) =
        (.error (.http (S "Unknown component custom ID") 400), [])) ∧
    (∀ a, splitColon1 cid = (a, none) → (a = S "start" ∨ a = S "stop") →
      (main_handler noAuthConfig (constParse (componentPayload mid cid)) env
          (plainRequest (strBytes (S "x")))).1 =
        HTTPResponse.from_exception
          (.valueError (S "not enough values to unpack (expected 2, got 1)"))) := by
  constructor
  · intro h1 h2 h3 h4
    rw [handle_request_componentPayload env mid cid _ hmid hcid]
    simp only [List.headD_eq_head?_getD] at h1 h2 h4
    simp [handleComponent, h1, h2, h3, h4]
  · intro a hsplit ha
    have hh := splitColon1_head cid a _ hsplit
    have hcomp : handleComponent env mid cid =
        (.error (.valueError (S "not enough values to unpack (expected 2, got 1)")), []) := by
      simp only [handleComponent, hh, hsplit]
      rcases ha with h | h <;> subst h <;> simp
    simp only [main_handler, handle_request_componentPayload env mid cid _ hmid hcid,
      hcomp]

/-- C4 witness: an unrecognized custom identifier `weird:x` is a 400. -/
theorem claim_c4_witness :
    handle_request noAuthConfig
        (constParse (componentPayload (.str (S "M1")) (S "weird:x"))) emptyEnv
        (plainRequest (strBytes (S "x"))) =
      (.error (.http (S "Unknown component custom ID") 400), []) :=
  (claim_c4_amended_grammar emptyEnv (.str (S "M1")) (S "weird:x")
    (fun h => Json.noConfusion h) (by decide)).1
    (by decide) (by decide) (by decide) (by decide)

/-- C9: encoding into the transport envelope: a 204 omits the body
field entirely; a non-204 with no body supplied fails fatally with the
contract `RuntimeError`; otherwise the body is flagged binary and
base64-encoded exactly when the Content-Type starts with neither
`text/` nor `application/json`, and is embedded as text as-is
otherwise. -/
theorem claim_c9_lambda_encoding (r : HTTPResponse) :
    (r.status_code = 204 →
      r.to_lambda_result = .ok ⟨204, r.headers, none, none⟩) ∧
    (r.status_code ≠ 204 → r.body = none →
      r.to_lambda_result = .error (.runtimeError
        (S "Response status must be 204 (not " ++ natStr r.status_code ++
         S ") when body isn't provided"))) ∧
    (∀ bs, r.status_code ≠ 204 → r.body = some bs → bs ≠ [] →
      (isTextOrJson r = false →
        r.to_lambda_result =
          .ok ⟨r.status_code, r.headers, some true, some (bytesStr (base64Encode bs))⟩) ∧
      (isTextOrJson r = true →
        r.to_lambda_result =
          .ok ⟨r.status_code, r.headers, some false, some (bytesStr bs)⟩)) := by
  refine ⟨?_, ?_, ?_⟩
  · intro h
    simp [HTTPResponse.to_lambda_result, h]
  · intro h hb
    simp [HTTPResponse.to_lambda_result, h, hb]
  · intro bs h hb hne
    constructor <;> intro hct <;>
      simp [HTTPResponse.to_lambda_result, h, hb, hne, hct]

/-- C9 witness: a 200 text response is embedded as-is and flagged
non-binary; a 200 response with no Content-Type is base64-encoded and
flagged binary; a 204 omits the body. -/
theorem claim_c9_witness :
    (HTTPResponse.mk 200 [(S "Content-Type", S "text/plain; charset=utf-8")]
        (some (strBytes (S "hi")))).to_lambda_result =
      .ok ⟨200, [(S "Content-Type", S "text/plain; charset=utf-8")], some false,
           some (bytesStr (strBytes (S "hi")))⟩ ∧
    (HTTPResponse.mk 200 [] (some [0])).to_lambda_result =
      .ok ⟨200, [], some true, some (bytesStr (base64Encode [0]))⟩ ∧
    (HTTPResponse.mk 204 [] none).to_lambda_result = .ok ⟨204, [], none, none⟩ :=
  ⟨((claim_c9_lambda_encoding
      (HTTPResponse.mk 200 [(S "Content-Type", S "text/plain; charset=utf-8")]
        (some (strBytes (S "hi"))))).2.2 (strBytes (S "hi"))
      (by decide) rfl (by decide)).2 (by decide),
   ((claim_c9_lambda_encoding (HTTPResponse.mk 200 [] (some [0]))).2.2 [0]
      (by decide) rfl (by decide)).1 (by decide),
   (claim_c9_lambda_encoding (HTTPResponse.mk 204 [] none)).1 rfl⟩

/-- C8: per-instance rendering: `stopped` gives an affirmative (style 3)
`Start <name>` button bound to `start:<id>`; `running` gives a
destructive (style 4) `Stop <name>` button bound to `stop:<id>`; any
other or absent state gives a neutral (style 2)
`<name> (<state-or-unknown>)` button bound to `refresh:<id>`; the
display name falls back to the raw id when the `Name` tag is absent; and
the control grid always begins with the refresh control. -/
theorem claim_c8_render_rows (inst : Instance) (l : List Instance) :
    (inst.state = some .stopped →
      instanceRow inst =
        buttonRow (S "Start " ++ nameOrId inst) 3 (S "start:" ++ inst.id)) ∧
    (inst.state = some .running →
      instanceRow inst =
        buttonRow (S "Stop " ++ nameOrId inst) 4 (S "stop:" ++ inst.id)) ∧
    (inst.state ≠ some .stopped → inst.state ≠ some .running →
      instanceRow inst =
        buttonRow
          (nameOrId inst ++ S " (" ++
            (match inst.state with
             | some st => st.value
             | none => S "unknown") ++ [')'])
          2 (S "refresh:" ++ inst.id)) ∧
    (dictGet inst.tags (S "Name") = none → nameOrId inst = inst.id) ∧
    (serverComponents l).headD .null = refreshRow := by
  refine ⟨?_, ?_, ?_, ?_, rfl⟩
  · intro h
    simp [instanceRow, h]
  · intro h
    simp [instanceRow, h]
  · intro h1 h2
    simp [instanceRow, h1, h2]
  · intro h
    simp [nameOrId, h]

/-- C8 witness: a stopped unnamed instance renders as
`Start i-1` / `start:i-1`, and the grid head is the refresh row. -/
theorem claim_c8_witness :
    instanceRow ⟨S "i-1", [], some .stopped⟩ =
      buttonRow (S "Start " ++ S "i-1") 3 (S "start:" ++ S "i-1") ∧
    (serverComponents []).headD .null = refreshRow :=
  ⟨(claim_c8_render_rows ⟨S "i-1", [], some .stopped⟩ []).1 rfl,
   (claim_c8_render_rows ⟨S "i-1", [], some .stopped⟩ []).2.2.2.2⟩

/-- C2 counterexample: with a verification key configured and the
signature header absent but the signed message nonempty, the handler
does not return 401: the empty signature fails PyNaCl's 64-byte length
check with a `ValueError` that is not a `BadSignatureError`, escapes the
`except` clause, and surfaces as a 500. -/
theorem claim_c2_counterexample :
    noSigHeaderRequest.get_header (S "X-Signature-Ed25519") = none ∧
    (main_handler ⟨some constFalseSig⟩ (constParse .null) emptyEnv
        noSigHeaderRequest).1.status_code = 500 ∧
    ¬ (main_handler ⟨some constFalseSig⟩ (constParse .null) emptyEnv
        noSigHeaderRequest).1.status_code = 401 := by
  refine ⟨rfl, rfl, by decide⟩

/-- C2 amended: with a verification key configured, the handler 401s
when the signed message (timestamp + body) is empty — which covers an
absent signature header only when timestamp and body are also empty —
and 401s when a 64-byte signature fails verification; but an absent
signature header with a nonempty signed message escapes as the uncaught
signature-length `ValueError`, surfacing as a 500, not a 401. -/
theorem claim_c2_amended_auth (sigOk : Bytes → Bytes → Bool)
    (jsonParse : Bytes → Except Unit Json) (env : Ec2Env) (request : HTTPRequest) :
    (request.get_header (S "X-Signature-Ed25519") = none →
      authMessage request = [] →
      handle_request ⟨some sigOk⟩ jsonParse env request =
        (.error (.http (S "missing request signature") 401), [])) ∧
    (request.get_header (S "X-Signature-Ed25519") = none →
      authMessage request ≠ [] →
      (main_handler ⟨some sigOk⟩ jsonParse env request).1 =
        HTTPResponse.from_exception
          (.valueError (S "The signature must be exactly 64 bytes long")) ∧
      (main_handler ⟨some sigOk⟩ jsonParse env request).1.status_code = 500) ∧
    (∀ hexStr sig, request.get_header (S "X-Signature-Ed25519") = some hexStr →
      bytesFromHex hexStr = .ok sig → sig.length = 64 →
      authMessage request ≠ [] → sigOk (authMessage request) sig = false →
      handle_request ⟨some sigOk⟩ jsonParse env request =
        (.error (.http (S "invalid request signature") 401), [])) := by
  refine ⟨?_, ?_, ?_⟩
  · intro hsig hmsg
    simp only [authMessage] at hmsg
    simp [handle_request, verify_discord_request_auth, hsig, hmsg, bytesFromHex,
      hexPairs]
  · intro hsig hmsg
    simp only [authMessage] at hmsg
    have hie : (strBytes ((request.get_header (S "X-Signature-Timestamp")).getD []) ++
        request.body.getD []).isEmpty = false := by
      rcases h : strBytes ((request.get_header (S "X-Signature-Timestamp")).getD []) ++
          request.body.getD [] with _ | ⟨b, bs⟩
      · exact absurd h hmsg
      · rfl
    constructor <;>
      simp [main_handler, handle_request, verify_discord_request_auth, hsig, hie,
        bytesFromHex, hexPairs, naclVerify, HTTPResponse.from_exception,
        Err.className, Err.message, httpErrorToResponse]
  · intro hexStr sig hsig hhex hlen hmsg hfail
    simp only [authMessage] at hmsg hfail
    have hie : (strBytes ((request.get_header (S "X-Signature-Timestamp")).getD []) ++
        request.body.getD []).isEmpty = false := by
      rcases h : strBytes ((request.get_header (S "X-Signature-Timestamp")).getD []) ++
          request.body.getD [] with _ | ⟨b, bs⟩
      · exact absurd h hmsg
      · rfl
    simp [handle_request, verify_discord_request_auth, hsig, hhex, hie, naclVerify,
      hlen, hfail]

/-- C2 witness: a 64-byte signature that fails verification is a 401. -/
theorem claim_c2_witness :
    handle_request ⟨some constFalseSig⟩ (constParse .null) emptyEnv zeroSigRequest =
      (.error (.http (S "invalid request signature") 401), []) :=
  (claim_c2_amended_auth constFalseSig (constParse .null) emptyEnv
    zeroSigRequest).2.2 (List.replicate 128 '0') (List.replicate 64 0) rfl
    rfl (by decide) (by decide) rfl

/-- Order facts about the code-point order: irreflexivity. -/
lemma strLt_irrefl (a : Str) : strLt a a = false := by
  induction a with
  | nil => rfl
  | cons c cs ih => simp [strLt, ih]

/-- Order facts about the code-point order: asymmetry. -/
lemma strLt_asymm (a b : Str) (h : strLt a b = true) : strLt b a = false := by
  induction a generalizing b with
  | nil =>
    cases b with
    | nil => simp [strLt] at h
    | cons d ds => rfl
  | cons c cs ih =>
    cases b with
    | nil => simp [strLt] at h
    | cons d ds =>
      simp only [strLt] at h ⊢
      by_cases hcd : c.toNat < d.toNat
      · have hdc : ¬ d.toNat < c.toNat := by omega
        simp [hcd, hdc]
      · by_cases hdc : d.toNat < c.toNat
        · simp [hcd, hdc] at h
        · simp only [hcd, hdc, if_false] at h ⊢
          exact ih ds h

/-- Order facts about the code-point order: transitivity. -/
lemma strLt_trans (a b c : Str) (h1 : strLt a b = true) (h2 : strLt b c = true) :
    strLt a c = true := by
  induction a generalizing b c with
  | nil =>
    cases b with
    | nil => simp [strLt] at h1
    | cons d ds =>
      cases c with
      | nil => simp [strLt] at h2
      | cons e es => rfl
  | cons x xs ih =>
    cases b with
    | nil => simp [strLt] at h1
    | cons y ys =>
      cases c with
      | nil => simp [strLt] at h2
      | cons z zs =>
        simp only [strLt] at h1 h2 ⊢
        by_cases hxy : x.toNat < y.toNat <;> by_cases hyz : y.toNat < z.toNat
        · have : x.toNat < z.toNat := by omega
          simp [this]
        · by_cases hzy : z.toNat < y.toNat
          · simp [hyz, hzy] at h2
          · have hyz2 : y.toNat = z.toNat := by omega
            have : x.toNat < z.toNat := by omega
            simp [this]
        · by_cases hyx : y.toNat < x.toNat
          · simp [hxy, hyx] at h1
          · have : x.toNat < z.toNat := by omega
            simp [this]
        · by_cases hyx : y.toNat < x.toNat
          · simp [hxy, hyx] at h1
          · by_cases hzy : z.toNat < y.toNat
            · simp [hyz, hzy] at h2
            · have hxz : ¬ x.toNat < z.toNat := by omega
              have hzx : ¬ z.toNat < x.toNat := by omega
              simp only [hxy, hyx, if_false] at h1
              simp only [hyz, hzy, if_false] at h2
              simp only [hxz, hzx, if_false]
              exact ih ys zs h1 h2

/-- Two strings neither of which is below the other are equal. -/
lemma strLt_antisymm (a b : Str) (h1 : strLt a b = false) (h2 : strLt b a = false) :
    a = b := by
  induction a generalizing b with
  | nil =>
    cases b with
    | nil => rfl
    | cons d ds => simp [strLt] at h1
  | cons c cs ih =>
    cases b with
    | nil => simp [strLt] at h2
    | cons d ds =>
      simp only [strLt] at h1 h2
      by_cases hcd : c.toNat < d.toNat
      · simp [hcd] at h1
      · by_cases hdc : d.toNat < c.toNat
        · simp [hdc, hcd] at h2
        · have hch : c = d := by
            have hn : c.toNat = d.toNat := by omega
            apply Char.eq_of_val_eq
            apply UInt32.ext
            exact hn
          simp only [hcd, hdc, if_false] at h1 h2
          rw [hch, ih ds h1 h2]

/-- `strLe` is transitive. -/
lemma strLe_trans (a b c : Str) (h1 : strLe a b = true) (h2 : strLe b c = true) :
    strLe a c = true := by
  simp only [strLe, Bool.not_eq_true'] at h1 h2 ⊢
  by_cases hca : strLt c a = true
  · by_cases hab : strLt a b = true
    · exact absurd (strLt_trans c a b hca hab) (by simp [h2])
    · have : a = b := strLt_antisymm a b (by simpa using hab) h1
      rw [this] at hca
      simp [hca] at h2
  · simpa using hca

/-- A failed `strLe` flips to a strict `strLt` the other way. -/
lemma strLe_of_not_strLe (a b : Str) (h : strLe a b = false) : strLe b a = true := by
  simp only [strLe, Bool.not_eq_false'] at h
  simp only [strLe, Bool.not_eq_true']
  exact strLt_asymm b a h

/-- The head of an insertion is the inserted element or the old head. -/
lemma insertByKey_head {α : Type} (κ : α → Str) (x : α) (l : List α) :
    (insertByKey κ x l).head? = some x ∨ (insertByKey κ x l).head? = l.head? := by
  cases l with
  | nil => exact Or.inl rfl
  | cons y ys =>
    simp only [insertByKey]
    by_cases h : strLe (κ y) (κ x) = true
    · simp [h]
    · simp [h]

/-- Inserting into a key-sorted list keeps it key-sorted. -/
lemma insertByKey_chain {α : Type} (κ : α → Str) (x : α) :
    ∀ l : List α, List.Chain' (fun a b => strLe (κ a) (κ b) = true) l →
      List.Chain' (fun a b => strLe (κ a) (κ b) = true) (insertByKey κ x l) := by
  intro l
  induction l with
  | nil => intro _; simp [insertByKey]
  | cons y ys ih =>
    intro h
    rw [List.chain'_cons'] at h
    simp only [insertByKey]
    by_cases hle : strLe (κ y) (κ x) = true
    · simp only [hle, if_true]
      rw [List.chain'_cons']
      refine ⟨?_, ih h.2⟩
      intro z hz
      rcases insertByKey_head κ x ys with hh | hh
      · rw [hh] at hz
        cases hz
        exact hle
      · rw [hh] at hz
        exact h.1 z hz
    · rw [if_neg hle, List.chain'_cons']
      refine ⟨?_, List.chain'_cons'.mpr h⟩
      intro z hz
      cases hz
      exact strLe_of_not_strLe _ _ (by simpa using hle)

/-- The accumulating stable sort produces a key-sorted list. -/
lemma pySorted_chain {α : Type} (κ : α → Str) (l : List α) :
    List.Chain' (fun a b => strLe (κ a) (κ b) = true) (pySorted κ l) := by
  suffices h : ∀ acc, List.Chain' (fun a b => strLe (κ a) (κ b) = true) acc →
      List.Chain' (fun a b => strLe (κ a) (κ b) = true)
        (l.foldl (fun acc x => insertByKey κ x acc) acc) by
    exact h [] (by simp)
  induction l with
  | nil => intro acc hacc; simpa using hacc
  | cons x xs ih =>
    intro acc hacc
    exact ih (insertByKey κ x acc) (insertByKey_chain κ x acc hacc)

/-- Insertion of an element with a different key leaves the key's fiber
of the list unchanged. -/
lemma insertByKey_filter_ne {α : Type} (κ : α → Str) (x : α) (k : Str)
    (hx : (κ x == k) = false) :
    ∀ l : List α, (insertByKey κ x l).filter (fun z => κ z == k) =
      l.filter (fun z => κ z == k) := by
  intro l
  induction l with
  | nil => simp [insertByKey, List.filter, hx]
  | cons y ys ih =>
    simp only [insertByKey]
    by_cases hle : strLe (κ y) (κ x) = true
    · simp only [hle, if_true, List.filter]
      rw [ih]
    · simp only [hle, if_false, List.filter, hx]

/-- Insertion of an element with key `k` into a key-sorted list appends
it to the end of the `k` fiber. -/
lemma insertByKey_filter_eq {α : Type} (κ : α → Str) (x : α) (k : Str)
    (hx : (κ x == k) = true) :
    ∀ l : List α, List.Chain' (fun a b => strLe (κ a) (κ b) = true) l →
      (insertByKey κ x l).filter (fun z => κ z == k) =
        l.filter (fun z => κ z == k) ++ [x] := by
  intro l
  induction l with
  | nil => simp [insertByKey, List.filter, hx]
  | cons y ys ih =>
    intro hchain
    simp only [insertByKey]
    by_cases hle : strLe (κ y) (κ x) = true
    · simp only [hle, if_true, List.filter]
      rw [ih (List.chain'_cons'.mp hchain).2]
      cases κ y == k <;> simp
    · have hknil : (y :: ys).filter (fun z => κ z == k) = [] := by
        rw [List.filter_eq_nil_iff]
        intro z hz
        have hkx : κ x = k := by simpa using hx
        have hzy : strLe (κ y) (κ z) = true := by
          rcases List.mem_cons.mp hz with h | h
          · subst h
            simp only [strLe, Bool.not_eq_true', strLt_irrefl]
          · haveI : IsTrans α (fun a b => strLe (κ a) (κ b) = true) :=
              ⟨fun a b c hab hbc => strLe_trans (κ a) (κ b) (κ c) hab hbc⟩
            have hp := List.chain'_iff_pairwise.mp hchain
            exact (List.pairwise_cons.mp hp).1 z h
        intro hzk
        have hzk2 : κ z = k := by simpa using hzk
        have : strLe (κ y) (κ x) = true := by
          rw [hkx, ← hzk2]
          exact hzy
        exact absurd this (by simpa using hle)
      rw [if_neg hle, List.filter_cons_of_pos, hknil]
      · simp
      · exact hx

/-- Stability of the accumulating sort: each key's fiber is preserved in
input order. -/
lemma pySorted_filter {α : Type} (κ : α → Str) (l : List α) (k : Str) :
    (pySorted κ l).filter (fun z => κ z == k) = l.filter (fun z => κ z == k) := by
  suffices h : ∀ acc, List.Chain' (fun a b => strLe (κ a) (κ b) = true) acc →
      (l.foldl (fun acc x => insertByKey κ x acc) acc).filter (fun z => κ z == k) =
        acc.filter (fun z => κ z == k) ++ l.filter (fun z => κ z == k) by
    simpa using h [] (by simp)
  induction l with
  | nil => intro acc hacc; simp
  | cons x xs ih =>
    intro acc hacc
    simp only [List.foldl_cons]
    rw [ih (insertByKey κ x acc) (insertByKey_chain κ x acc hacc)]
    by_cases hx : (κ x == k) = true
    · rw [insertByKey_filter_eq κ x k hx acc hacc,
        List.filter_cons_of_pos, List.append_assoc]
      · rfl
      · exact hx
    · rw [insertByKey_filter_ne κ x k (by simpa using hx) acc,
        List.filter_cons_of_neg]
      exact (by simpa using hx)

/-- C5 counterexample: with two instances sharing the display name
`srv`, the handler renders them in provider listing order (`i-b` before
`i-a`) — Python's `sorted` is stable and the key is the display name
only — so ties are NOT broken by instance identifier as the claim
states. -/
theorem claim_c5_counterexample :
    (selectInstances envTieNames (.str (S "M1"))).map (·.id) =
      [S "i-b", S "i-a"] ∧
    specSortedByNameThenId (selectInstances envTieNames (.str (S "M1"))) = false := by
  constructor <;> rfl

/-- C5 amended: rendering is deterministic (equal snapshots render
byte-identical payloads), the rendered instances are sorted ascending by
display name (tag falling back to identifier), and ties between equal
display names keep the provider listing order: each display-name fiber
of the sorted selection equals that fiber of the unsorted filtered
listing. -/
theorem claim_c5_amended_render_order (env : Ec2Env) (mid : Json) :
    (∀ l1 l2 : List Instance, l1 = l2 →
      (renderResponse l1).body = (renderResponse l2).body) ∧
    List.Chain' (fun a b => strLe (nameOrId a) (nameOrId b) = true)
      (selectInstances env mid) ∧
    (∀ k, (selectInstances env mid).filter (fun x => nameOrId x == k) =
      (managedByMessage env mid).filter (fun x => nameOrId x == k)) := by
  refine ⟨?_, ?_, ?_⟩
  · intro l1 l2 h
    rw [h]
  · exact pySorted_chain nameOrId (managedByMessage env mid)
  · intro k
    exact pySorted_filter nameOrId (managedByMessage env mid) k

/-- C5 witness: determinism applied to a concrete snapshot, and
key-sortedness of the tie environment's selection. -/
theorem claim_c5_witness :
    (renderResponse (selectInstances envTieNames (.str (S "M1")))).body =
      (renderResponse (selectInstances envTieNames (.str (S "M1")))).body ∧
    List.Chain' (fun a b => strLe (nameOrId a) (nameOrId b) = true)
      (selectInstances envTieNames (.str (S "M1"))) :=
  ⟨(claim_c5_amended_render_order envTieNames (.str (S "M1"))).1
      (selectInstances envTieNames (.str (S "M1")))
      (selectInstances envTieNames (.str (S "M1"))) rfl,
   (claim_c5_amended_render_order envTieNames (.str (S "M1"))).2.1⟩
